import Mathlib

/-!
# SmartCourse — progress/completion aggregation, caching and certificates

A shallow embedding of the course-service progress subsystem of the
SmartCourse repository, together with the cache client and the
cache-coordinated course service, and theorems checking the specification's
claims against it.

Conventions of the embedding:
* machine integers (SQL ids, counts) are `Nat`;
* timestamps (`datetime.utcnow()` values) are `Nat`; a call that reads the
  clock takes the current time `now` as an explicit argument;
* SQL tables are Lean lists of records plus an autoincrement counter;
  `SELECT ... WHERE` is `List.filter` / `List.find?` (`.scalars().first()`
  is the first element in insertion order, as it is for these tables, which
  are only ever appended to);
* Python `None` is `Option.none`; fallible service calls return
  `Except String` with the source's error message strings;
* `Decimal`/percentage arithmetic is exact rational arithmetic `ℚ`;
  Python's `round(x, 2)` is modelled as exact rounding of the rational to
  two decimal places (the claims under check only exercise values that are
  exact at two decimals, where float rounding and rational rounding agree).
-/

namespace SmartCourse

/-! ## Data model (models/enrollment.py, models/progress.py, models/certificate.py)

Only the columns read or written by the services under verification are
carried; omitted columns (payment fields, the superseded embedded progress
arrays, `score_percentage` precision, etc.) are never consulted by the
modelled code paths. -/

/-- `models/enrollment.py` — `Enrollment` row.  `status` ranges over the
source's strings `"active" | "completed" | "dropped" | "suspended"`. -/
structure Enrollment where
  id : Nat
  student_id : Nat
  course_id : Nat
  status : String
  enrolled_at : Nat
  started_at : Option Nat
  completed_at : Option Nat
  dropped_at : Option Nat
  last_accessed_at : Option Nat
  deriving Repr, DecidableEq

/-- `models/progress.py` — `Progress` row: one row per completed content
item, with unique constraint `uq_progress_user_item` on
`(user_id, item_type, item_id)` (no course component). -/
structure Progress where
  id : Nat
  user_id : Nat
  course_id : Nat
  item_type : String
  item_id : String
  completed_at : Nat
  created_at : Nat
  deriving Repr, DecidableEq

/-- `models/certificate.py` — `Certificate` row; `enrollment_id` is unique. -/
structure Certificate where
  id : Nat
  enrollment_id : Nat
  certificate_number : String
  issue_date : Nat
  certificate_url : Option String
  verification_code : String
  grade : Option String
  score_percentage : Option ℚ
  issued_by_id : Option Nat
  is_revoked : Bool
  revoked_at : Option Nat
  revoked_reason : Option String
  created_at : Nat
  deriving Repr, DecidableEq

/-! ## Course-content documents (MongoDB `course_content` collection)

One document per course: ordered modules, each with ordered lessons,
quizzes and summaries; modules and the three item kinds carry an
`is_active` soft-delete flag (`schemas/course_content.py`,
`repositories/course_content.py`). -/

structure LessonNode where
  lesson_id : String
  is_active : Bool
  deriving Repr, DecidableEq

structure QuizNode where
  quiz_id : String
  is_active : Bool
  deriving Repr, DecidableEq

structure SummaryNode where
  summary_id : String
  is_active : Bool
  deriving Repr, DecidableEq

structure ModuleNode where
  module_id : String
  is_active : Bool
  lessons : List LessonNode
  quizzes : List QuizNode
  summaries : List SummaryNode
  deriving Repr, DecidableEq

/-- One `course_content` document. -/
structure ContentDoc where
  course_id : Nat
  modules : List ModuleNode
  deriving Repr, DecidableEq

/-! ## Combined persistent state seen by the progress/certificate services -/

/-- The relational and document stores used by `ProgressService` and
`CertificateService`: the three PostgreSQL tables with their autoincrement
counters, and the MongoDB `course_content` collection. -/
structure DB where
  enrollments : List Enrollment
  progresses : List Progress
  progressNextId : Nat
  certificates : List Certificate
  certNextId : Nat
  contents : List ContentDoc
  deriving Repr, DecidableEq

/-! ## Repositories (repositories/*.py) -/

/-- `EnrollmentRepository.get_by_student_and_course` — first row matching
the (student, course) pair. -/
def getByStudentAndCourse (db : DB) (student_id course_id : Nat) :
    Option Enrollment :=
  db.enrollments.find? fun e =>
    e.student_id == student_id && e.course_id == course_id

/-- `BaseRepository.get_by_id` for enrollments. -/
def enrollmentById (db : DB) (id : Nat) : Option Enrollment :=
  db.enrollments.find? fun e => e.id == id

/-- The update dict passed to `BaseRepository.update` for an enrollment:
each field present in the dict is set on the fetched row
(`setattr(db_obj, key, value)`); absent keys leave the column unchanged. -/
structure EnrollmentUpdate where
  status : Option String := none
  started_at : Option Nat := none
  completed_at : Option Nat := none
  last_accessed_at : Option Nat := none
  deriving Repr, DecidableEq

def applyEnrollmentUpdate (u : EnrollmentUpdate) (e : Enrollment) : Enrollment :=
  { e with
    status := u.status.getD e.status
    started_at := match u.started_at with | some t => some t | none => e.started_at
    completed_at := match u.completed_at with | some t => some t | none => e.completed_at
    last_accessed_at := match u.last_accessed_at with | some t => some t | none => e.last_accessed_at }

/-- `BaseRepository.update(id, data)` for the enrollments table: fetch by
id, set the supplied attributes, commit; a missing id is a silent no-op
(the repository returns `None`). -/
def enrollmentUpdate (db : DB) (id : Nat) (u : EnrollmentUpdate) : DB :=
  { db with
    enrollments := db.enrollments.map fun e =>
      if e.id == id then applyEnrollmentUpdate u e else e }

/-- `ProgressRepository.get_by_user_and_item` — first row matching
`(user_id, item_type, item_id)`. -/
def getByUserAndItem (db : DB) (user_id : Nat) (item_type item_id : String) :
    Option Progress :=
  db.progresses.find? fun p =>
    p.user_id == user_id && p.item_type == item_type && p.item_id == item_id

/-- `ProgressRepository.get_user_course_progress` — all rows for the user
in the given course. -/
def getUserCourseProgress (db : DB) (user_id course_id : Nat) : List Progress :=
  db.progresses.filter fun p =>
    p.user_id == user_id && p.course_id == course_id

/-- `ProgressRepository.mark_completed` — `INSERT ... ON CONFLICT
(user_id, item_type, item_id) DO NOTHING RETURNING id`: when no row with
the triple exists the insert succeeds and the inserted row is fetched and
returned; on conflict nothing is inserted and the existing row is fetched
via `get_by_user_and_item`.  `completed_at`/`created_at` take their
`datetime.utcnow` column defaults. -/
def repoMarkCompleted (db : DB) (now : Nat) (user_id course_id : Nat)
    (item_type item_id : String) : DB × Option Progress :=
  match getByUserAndItem db user_id item_type item_id with
  | some existing => (db, some existing)
  | none =>
      let row : Progress :=
        { id := db.progressNextId
          user_id := user_id
          course_id := course_id
          item_type := item_type
          item_id := item_id
          completed_at := now
          created_at := now }
      ({ db with
          progresses := db.progresses ++ [row]
          progressNextId := db.progressNextId + 1 },
       some row)

/-- `CertificateRepository.get_by_enrollment` — first certificate for the
enrollment. -/
def certByEnrollment (db : DB) (enrollment_id : Nat) : Option Certificate :=
  db.certificates.find? fun c => c.enrollment_id == enrollment_id

/-- `CertificateRepository.get_by_verification_code`. -/
def certByVerificationCode (db : DB) (code : String) : Option Certificate :=
  db.certificates.find? fun c => c.verification_code == code

/-- `CourseContentRepository.get_by_course_id` — the course's document. -/
def contentByCourseId (db : DB) (course_id : Nat) : Option ContentDoc :=
  db.contents.find? fun d => d.course_id == course_id

end SmartCourse

namespace SmartCourse

/-! ## Progress aggregation engine (services/progress.py) -/

/-- Python's `round(x, 2)` on the exact quotient, as exact rational
rounding to two decimal places (round-half-up; the tie-breaking rule is
irrelevant to every value exercised below, all of which are exact at two
decimals). -/
def round2 (q : ℚ) : ℚ := ((⌊q * 100 + 1 / 2⌋ : ℤ) : ℚ) / 100

/-- An entry of the list built by `ProgressService._get_active_items`:
the dict `{"type": t, "id": i}` as the pair `(t, i)`. -/
abbrev ActiveItem := String × String

/-- `ProgressService._get_active_items` — all active lessons, quizzes and
summaries of the course's active modules, in document order (per module:
lessons, then quizzes, then summaries); `[]` when the course has no
content document. -/
def getActiveItems (db : DB) (course_id : Nat) : List ActiveItem :=
  match contentByCourseId db course_id with
  | none => []
  | some content =>
      content.modules.flatMap fun m =>
        if !m.is_active then []
        else
          ((m.lessons.filter (·.is_active)).map fun l => ("lesson", l.lesson_id))
          ++ ((m.quizzes.filter (·.is_active)).map fun q => ("quiz", q.quiz_id))
          ++ ((m.summaries.filter (·.is_active)).map fun s => ("summary", s.summary_id))

/-- `schemas/progress.py:CourseProgressSummary` — the pydantic response
model of `get_course_progress`.  Every declared field is required,
`enrollment_id` (line 34) included. -/
structure CourseProgressSummary where
  course_id : Nat
  user_id : Nat
  enrollment_id : Nat
  total_items : Nat
  completed_items : Nat
  completion_percentage : ℚ
  completed_lessons : List String
  completed_quizzes : List String
  completed_summaries : List String
  has_certificate : Bool
  is_complete : Bool
  deriving Repr, DecidableEq

/-- The keyword arguments `get_course_progress` passes to the
`CourseProgressSummary` constructor (services/progress.py:95-106).
`enrollment_id` is represented as an `Option` defaulting to `none`
(argument absent) — the service never supplies it. -/
structure CourseProgressSummaryKwargs where
  course_id : Nat
  user_id : Nat
  enrollment_id : Option Nat := none
  total_items : Nat
  completed_items : Nat
  completion_percentage : ℚ
  completed_lessons : List String
  completed_quizzes : List String
  completed_summaries : List String
  has_certificate : Bool
  is_complete : Bool
  deriving Repr, DecidableEq

/-- The `ValidationError` pydantic raises when a required field of
`CourseProgressSummary` is absent from the constructor arguments. -/
def validationErrMsg : String :=
  "ValidationError: 1 validation error for CourseProgressSummary: enrollment_id Field required"

/-- Pydantic construction `CourseProgressSummary(**kwargs)`: validation
checks every declared field against the supplied arguments and raises
`ValidationError` when a required one — here `enrollment_id` — is
missing. -/
def CourseProgressSummary.validate (kwargs : CourseProgressSummaryKwargs) :
    Except String CourseProgressSummary :=
  match kwargs.enrollment_id with
  | none => .error validationErrMsg
  | some eid =>
      .ok { course_id := kwargs.course_id
            user_id := kwargs.user_id
            enrollment_id := eid
            total_items := kwargs.total_items
            completed_items := kwargs.completed_items
            completion_percentage := kwargs.completion_percentage
            completed_lessons := kwargs.completed_lessons
            completed_quizzes := kwargs.completed_quizzes
            completed_summaries := kwargs.completed_summaries
            has_certificate := kwargs.has_certificate
            is_complete := kwargs.is_complete }

/-- The denominator, numerator and rounded percentage computed locally by
`get_course_progress` (services/progress.py lines 66-86): active items of
the current content tree, completed pairs intersected with them, and
`round((completed / total) * 100, 2)` with `0` when no active item
exists. -/
def computedCompletion (db : DB) (user_id course_id : Nat) : Nat × Nat × ℚ :=
  let activeItems := getActiveItems db course_id
  let totalItems := activeItems.length
  let completed := getUserCourseProgress db user_id course_id
  let completedIds := completed.map fun p => (p.item_type, p.item_id)
  let completedActive := activeItems.filter fun item => completedIds.contains item
  let completedCount := completedActive.length
  let percentage : ℚ :=
    if totalItems > 0 then
      round2 ((completedCount : ℚ) / (totalItems : ℚ) * 100)
    else 0
  (totalItems, completedCount, percentage)

/-- `ProgressService.get_course_progress` — requires an active-or-completed
enrollment; recomputes the denominator from the current content tree and
the numerator as the completed pairs intersected with the active-item
set, then constructs the pydantic summary.  The construction never
receives the schema's required `enrollment_id`, so on every
enrollment-gated call it raises `ValidationError` instead of returning. -/
def getCourseProgress (db : DB) (user_id course_id : Nat) :
    Except String CourseProgressSummary := do
  let some enrollment := getByStudentAndCourse db user_id course_id
    | throw "User is not enrolled in this course"
  if !(enrollment.status == "active" || enrollment.status == "completed") then
    throw "Enrollment is not active (dropped or suspended)"
  let (totalItems, completedCount, percentage) :=
    computedCompletion db user_id course_id
  let completed := getUserCourseProgress db user_id course_id
  let cert := certByEnrollment db enrollment.id
  let hasCertificate := cert.isSome && !((cert.map (·.is_revoked)).getD false)
  CourseProgressSummary.validate
    { course_id := course_id
      user_id := user_id
      total_items := totalItems
      completed_items := completedCount
      completion_percentage := percentage
      completed_lessons :=
        (completed.filter fun p => p.item_type == "lesson").map (·.item_id)
      completed_quizzes :=
        (completed.filter fun p => p.item_type == "quiz").map (·.item_id)
      completed_summaries :=
        (completed.filter fun p => p.item_type == "summary").map (·.item_id)
      has_certificate := hasCertificate
      is_complete := decide (percentage ≥ 100) }

/-- `ProgressService._check_auto_complete` — recompute aggregate progress;
when it reaches 100% and no unrevoked certificate exists, set the
enrollment to `completed` with a fresh `completed_at` timestamp.  The
`get_course_progress` call raises before the guard is ever evaluated, so
the completion update is dead code in the program as written; the raise
propagates to the caller. -/
def checkAutoComplete (db : DB) (now : Nat) (user_id course_id enrollment_id : Nat) :
    Except String DB := do
  let progress ← getCourseProgress db user_id course_id
  if progress.completion_percentage ≥ 100 && !progress.has_certificate then
    return enrollmentUpdate db enrollment_id
      { status := some "completed", completed_at := some now }
  else
    return db

/-- `ProgressService.mark_completed` — enrollment-gated idempotent
completion write, followed by the `started_at`/`last_accessed_at` refresh
and the auto-completion check.  Each repository write commits before
`_check_auto_complete` runs, so the store state is returned alongside the
outcome: a raise out of the auto-completion check (the `ValidationError`
above) leaves the committed progress row and enrollment refresh in
place while the call itself fails. -/
def markCompleted (db : DB) (now : Nat) (user_id course_id : Nat)
    (item_type item_id : String) : DB × Except String (Option Progress) :=
  match getByStudentAndCourse db user_id course_id with
  | none => (db, .error "User is not enrolled in this course")
  | some enrollment =>
      if !(enrollment.status == "active" || enrollment.status == "completed") then
        (db, .error "Enrollment is not active")
      else
        let (db1, progress) :=
          repoMarkCompleted db now user_id course_id item_type item_id
        let upd : EnrollmentUpdate :=
          { last_accessed_at := some now
            started_at := if enrollment.started_at == none then some now else none }
        let db2 := enrollmentUpdate db1 enrollment.id upd
        match checkAutoComplete db2 now user_id course_id enrollment.id with
        | .error e => (db2, .error e)
        | .ok db3 => (db3, .ok progress)

end SmartCourse

namespace SmartCourse

/-! ## Certificate service (services/certificate.py, api/certificates.py) -/

/-- `schemas/certificate.py:CertificateCreate` — issuance request body. -/
structure CertificateCreate where
  enrollment_id : Nat
  grade : Option String := none
  score_percentage : Option ℚ := none
  deriving Repr, DecidableEq

/-- `CertificateService.issue_certificate` — precondition checks in source
order, then `BaseRepository.create`.  The generated `certificate_number`
and `verification_code` (`uuid.uuid4()` draws) are taken as explicit
arguments; `date.today()` is `now`. -/
def issueCertificate (db : DB) (now : Nat) (data : CertificateCreate)
    (user_id : Nat) (role : String) (certNumber verifCode : String) :
    Except String (DB × Certificate) := do
  let some enrollment := enrollmentById db data.enrollment_id
    | throw "Enrollment not found"
  if enrollment.status != "completed" then
    throw "Enrollment is not completed — complete all modules first to earn a certificate"
  if !(role == "instructor" || role == "admin") then
    if enrollment.student_id != user_id then
      throw "You can only request a certificate for your own enrollment"
  if (certByEnrollment db data.enrollment_id).isSome then
    throw "Certificate already issued for this enrollment"
  let cert : Certificate :=
    { id := db.certNextId
      enrollment_id := data.enrollment_id
      certificate_number := certNumber
      issue_date := now
      certificate_url := none
      verification_code := verifCode
      grade := data.grade
      score_percentage := data.score_percentage
      issued_by_id := some user_id
      is_revoked := false
      revoked_at := none
      revoked_reason := none
      created_at := now }
  return ({ db with
             certificates := db.certificates ++ [cert]
             certNextId := db.certNextId + 1 },
          cert)

/-- `schemas/certificate.py:CertificateVerifyResponse` — the public
verification payload. -/
structure CertificateVerifyResponse where
  is_valid : Bool
  certificate_number : Option String := none
  issue_date : Option Nat := none
  grade : Option String := none
  is_revoked : Bool := false
  deriving Repr, DecidableEq

/-- `api/certificates.py:verify_certificate` — the unauthenticated
verification endpoint: look the certificate up by its public code
(`CertificateService.verify_certificate`) and build the response. -/
def verifyCertificateEndpoint (db : DB) (code : String) :
    CertificateVerifyResponse :=
  match certByVerificationCode db code with
  | none => { is_valid := false }
  | some cert =>
      { is_valid := !cert.is_revoked
        certificate_number := some cert.certificate_number
        issue_date := some cert.issue_date
        grade := cert.grade
        is_revoked := cert.is_revoked }

/-! ## Content soft-delete (services/course_content.py)

`CourseContentService.delete_module` / `delete_lesson` delegate to
`CourseContentRepository.soft_delete_module` / `soft_delete_lesson`.
These two repository methods are referenced by the service but are not
present in the repository sources; they are modelled from the
specification below.  (The service additionally fires the fault-tolerant
`cache_delete("course:content:{id}")`, which touches only the cache layer
modelled separately and cannot fail the call.) -/

/-- Modelled from the spec: `CourseContentRepository.soft_delete_module`
(absent from `repositories/course_content.py`; only its caller
`CourseContentService.delete_module` appears in the sources).  Per the
spec, soft-delete of a module "sets `is_active = false` rather than
removing it"; locating a missing course or module yields not-found
(`None`) with no change. -/
def softDeleteModule (db : DB) (course_id : Nat) (module_id : String) :
    DB × Option ContentDoc :=
  match contentByCourseId db course_id with
  | none => (db, none)
  | some doc =>
      if doc.modules.any fun m => m.module_id == module_id then
        let doc' : ContentDoc :=
          { doc with
            modules := doc.modules.map fun m =>
              if m.module_id == module_id then { m with is_active := false } else m }
        ({ db with
            contents := db.contents.map fun d =>
              if d.course_id == course_id then doc' else d },
         some doc')
      else (db, none)

/-- Modelled from the spec: `CourseContentRepository.soft_delete_lesson`
(absent from `repositories/course_content.py`; only its caller
`CourseContentService.delete_lesson` appears in the sources).  Per the
spec, soft-delete of a lesson "sets `is_active = false` rather than
removing it"; locating a missing course, module or lesson yields
not-found (`None`) with no change. -/
def softDeleteLesson (db : DB) (course_id : Nat) (module_id lesson_id : String) :
    DB × Option ContentDoc :=
  match contentByCourseId db course_id with
  | none => (db, none)
  | some doc =>
      if doc.modules.any fun m =>
          m.module_id == module_id &&
          m.lessons.any fun l => l.lesson_id == lesson_id then
        let doc' : ContentDoc :=
          { doc with
            modules := doc.modules.map fun m =>
              if m.module_id == module_id then
                { m with
                  lessons := m.lessons.map fun l =>
                    if l.lesson_id == lesson_id then { l with is_active := false }
                    else l }
              else m }
        ({ db with
            contents := db.contents.map fun d =>
              if d.course_id == course_id then doc' else d },
         some doc')
      else (db, none)

/-- `CourseContentService.delete_module` — delegate to the repository
soft delete and return the updated document. -/
def serviceDeleteModule (db : DB) (course_id : Nat) (module_id : String) :
    DB × Option ContentDoc :=
  softDeleteModule db course_id module_id

/-- `CourseContentService.delete_lesson` — delegate to the repository
soft delete and return the updated document. -/
def serviceDeleteLesson (db : DB) (course_id : Nat)
    (module_id lesson_id : String) : DB × Option ContentDoc :=
  softDeleteLesson db course_id module_id lesson_id

end SmartCourse

namespace SmartCourse

/-! ## Cache-coordinated course service (services/course.py)

The course service runs against its own relational table and the
in-process cache; the cache here is modelled as a reachable key-value
store (an association list), since claim C5 concerns which keys the write
paths delete, not fault tolerance (modelled separately below). -/

/-- `models/course.py` — `Course` row (columns consulted by the modelled
paths; the remaining nullable descriptive columns are never read by them). -/
structure Course where
  id : Nat
  title : String
  slug : String
  instructor_id : Nat
  status : String
  published_at : Option Nat
  is_deleted : Bool
  deriving Repr, DecidableEq

/-- `_course_to_dict` / `CourseResponse.model_dump` — the normalized view
dict cached and returned by the service. -/
structure CourseView where
  id : Nat
  title : String
  slug : String
  instructor_id : Nat
  status : String
  deriving Repr, DecidableEq

def courseToDict (c : Course) : CourseView :=
  { id := c.id, title := c.title, slug := c.slug
    instructor_id := c.instructor_id, status := c.status }

/-- A cached value: either a `course:detail:{id}` payload or a
`course:published:p:{skip}:l:{limit}` page (items and total stored
together). -/
inductive CacheVal where
  | detail (v : CourseView)
  | page (items : List CourseView) (total : Nat)
  deriving Repr, DecidableEq

/-- The in-process cache contents: key → value (TTLs do not influence the
single-process read-after-write behaviour under check and are not
carried). -/
abbrev Cache := List (String × CacheVal)

def cacheLookup (cache : Cache) (key : String) : Option CacheVal :=
  (cache.find? fun kv => kv.1 == key).map (·.2)

/-- `cache_set` against a reachable store: overwrite the key. -/
def cacheStore (cache : Cache) (key : String) (v : CacheVal) : Cache :=
  (key, v) :: cache.filter fun kv => kv.1 != key

/-- `cache_delete` against a reachable store. -/
def cacheRemove (cache : Cache) (key : String) : Cache :=
  cache.filter fun kv => kv.1 != key

/-- Redis glob matching, as used by `scan_iter(match=pattern)`: `*`
matches any (possibly empty) substring; other characters match
themselves.  (The only patterns issued by the course service are of the
shape `prefix*`.) -/
def globChars : List Char → List Char → Bool
  | [], s => s.isEmpty
  | '*' :: ps, s => (List.range (s.length + 1)).any fun k => globChars ps (s.drop k)
  | _ :: _, [] => false
  | p :: ps, c :: cs => p == c && globChars ps cs

def globMatch (pattern s : String) : Bool :=
  globChars pattern.toList s.toList

/-- `cache_delete_pattern` against a reachable store: delete every key
matching the glob pattern. -/
def cacheRemovePattern (cache : Cache) (pattern : String) : Cache :=
  cache.filter fun kv => !globMatch pattern kv.1

/-- The course service's state: the `courses` table with its
autoincrement counter, plus the cache. -/
structure CourseState where
  courses : List Course
  courseNextId : Nat
  cache : Cache
  deriving Repr, DecidableEq

/-- `BaseRepository.get_by_id` for courses (no soft-delete filter; the
service checks `is_deleted` itself). -/
def courseById (s : CourseState) (id : Nat) : Option Course :=
  s.courses.find? fun c => c.id == id

/-- `CourseRepository.get_by_slug` / `slug_exists` — slug lookup excluding
soft-deleted rows. -/
def slugExists (s : CourseState) (slug : String) : Bool :=
  (s.courses.find? fun c => c.slug == slug && !c.is_deleted).isSome

/-- The update dict handed to `BaseRepository.update` for a course by the
three write paths (each key present is `setattr`; the descriptive
optional columns of `CourseUpdate` behave exactly like `title`). -/
structure CourseUpdateData where
  title : Option String := none
  status : Option String := none
  published_at : Option Nat := none
  is_deleted : Option Bool := none
  deriving Repr, DecidableEq

def applyCourseUpdate (u : CourseUpdateData) (c : Course) : Course :=
  { c with
    title := u.title.getD c.title
    status := u.status.getD c.status
    published_at := match u.published_at with | some t => some t | none => c.published_at
    is_deleted := u.is_deleted.getD c.is_deleted }

/-- `BaseRepository.update(id, data)` for the courses table. -/
def courseTableUpdate (courses : List Course) (id : Nat) (u : CourseUpdateData) :
    List Course :=
  courses.map fun c => if c.id == id then applyCourseUpdate u c else c

def detailKey (course_id : Nat) : String :=
  "course:detail:" ++ toString course_id

/-- `CourseService.get_course` — read-through: cache hit returns the
cached dict; miss loads from the table (soft-deleted ⇒ not found, never
cached), populates the cache and returns the dict.  (Detail keys only ever
hold detail payloads; a page payload under a detail key cannot arise.) -/
def getCourse (s : CourseState) (course_id : Nat) :
    Option CourseView × CourseState :=
  match cacheLookup s.cache (detailKey course_id) with
  | some (.detail v) => (some v, s)
  | some (.page _ _) => (none, s)
  | none =>
      match courseById s course_id with
      | none => (none, s)
      | some course =>
          if course.is_deleted then (none, s)
          else
            let v := courseToDict course
            (some v,
             { s with cache := cacheStore s.cache (detailKey course_id) (.detail v) })

/-- `schemas/course.py:CourseCreate` — fields consulted by the create path. -/
structure CourseCreate where
  title : String
  slug : String
  deriving Repr, DecidableEq

/-- `CourseService.create_course` — slug-uniqueness check, then insert
with `status = "draft"` and the acting instructor as owner.  The source
performs no cache operation on this path. -/
def createCourse (s : CourseState) (data : CourseCreate) (instructor_id : Nat) :
    Except String (CourseView × CourseState) := do
  if slugExists s data.slug then
    throw ("Slug '" ++ data.slug ++ "' is already taken")
  let course : Course :=
    { id := s.courseNextId
      title := data.title
      slug := data.slug
      instructor_id := instructor_id
      status := "draft"
      published_at := none
      is_deleted := false }
  return (courseToDict course,
          { s with
            courses := s.courses ++ [course]
            courseNextId := s.courseNextId + 1 })

/-- `schemas/course.py:CourseUpdate` — the client-supplied update body:
all fields optional, `exclude_unset` semantics; only descriptive columns
(here `title`, representative of the rest — the schema exposes neither
`status` nor `is_deleted` nor `published_at`). -/
structure CourseUpdate where
  title : Option String := none
  deriving Repr, DecidableEq

/-- `CourseService.update_course` — ownership-checked update followed by
deletion of the detail key and of every `course:published:*` page key.
A missing or soft-deleted course is `None`; an ownership mismatch raises. -/
def updateCourse (s : CourseState) (course_id : Nat) (data : CourseUpdate)
    (instructor_id : Nat) : Except String (Option CourseView × CourseState) := do
  let some course := courseById s course_id
    | return (none, s)
  if course.is_deleted then
    return (none, s)
  if course.instructor_id != instructor_id then
    throw "You do not own this course"
  let courses' := courseTableUpdate s.courses course_id { title := data.title }
  let result := (courses'.find? fun c => c.id == course_id)
  let cache' := cacheRemovePattern
    (cacheRemove s.cache (detailKey course_id)) "course:published:*"
  return (result.map courseToDict, { s with courses := courses', cache := cache' })

/-- `CourseService.update_status` — status transition (stamping
`published_at` on the first transition to `published`), with the same
ownership check and the same cache invalidation as `update_course`. -/
def updateStatus (s : CourseState) (now : Nat) (course_id : Nat)
    (newStatus : String) (instructor_id : Nat) :
    Except String (Option CourseView × CourseState) := do
  let some course := courseById s course_id
    | return (none, s)
  if course.is_deleted then
    return (none, s)
  if course.instructor_id != instructor_id then
    throw "You do not own this course"
  let upd : CourseUpdateData :=
    { status := some newStatus
      published_at :=
        if newStatus == "published" && course.status != "published" then some now
        else none }
  let courses' := courseTableUpdate s.courses course_id upd
  let result := (courses'.find? fun c => c.id == course_id)
  let cache' := cacheRemovePattern
    (cacheRemove s.cache (detailKey course_id)) "course:published:*"
  return (result.map courseToDict, { s with courses := courses', cache := cache' })

/-- `CourseService.delete_course` — ownership-checked soft delete
(`CourseRepository.soft_delete` sets `is_deleted = True`), with the same
cache invalidation. -/
def deleteCourse (s : CourseState) (course_id : Nat) (instructor_id : Nat) :
    Except String (Bool × CourseState) := do
  let some course := courseById s course_id
    | return (false, s)
  if course.is_deleted then
    return (false, s)
  if course.instructor_id != instructor_id then
    throw "You do not own this course"
  let courses' := courseTableUpdate s.courses course_id { is_deleted := some true }
  let cache' := cacheRemovePattern
    (cacheRemove s.cache (detailKey course_id)) "course:published:*"
  return (true, { s with courses := courses', cache := cache' })

end SmartCourse

namespace SmartCourse

/-! ## Fault-tolerant cache client (core/cache.py, core/redis.py)

`get_redis()` returns the module-level client, or `None` when the
connection was never established (`connect_redis` failure) — modelled as
an `Option`.  Each client operation either answers or raises; a raise is
`.error`.  JSON (de)serialization (`json.loads` / `json.dumps`) happens
inside the same `try` block as the store call, so a deserialization
failure is indistinguishable from a store failure to the caller and is
folded into the operation's `.error` outcome; the payload type is
abstract (`α`). -/

/-- The behaviour of a connected Redis client toward the cache helpers:
what each underlying call answers (or raises) per key. -/
structure RedisClient (α : Type) where
  get : String → Except String (Option α)
  set : String → α → Nat → Except String Unit
  del : String → Except String Nat
  scanIter : String → Except String (List String)
  keyExists : String → Except String Nat

namespace CacheClient

/-- `cache_get` — `None` when there is no client, on a raised operation
(including a failed `json.loads`), or on a genuine miss. -/
def cacheGet {α : Type} (client : Option (RedisClient α)) (key : String) :
    Option α :=
  match client with
  | none => none
  | some c =>
      match c.get key with
      | .error _ => none
      | .ok none => none
      | .ok (some v) => some v

/-- `cache_set` — `False` when there is no client or the store raises;
`True` on success. -/
def cacheSet {α : Type} (client : Option (RedisClient α)) (key : String)
    (value : α) (ttl : Nat) : Bool :=
  match client with
  | none => false
  | some c =>
      match c.set key value ttl with
      | .error _ => false
      | .ok _ => true

/-- `cache_delete` — `False` when there is no client or the store raises. -/
def cacheDelete {α : Type} (client : Option (RedisClient α)) (key : String) :
    Bool :=
  match client with
  | none => false
  | some c =>
      match c.del key with
      | .error _ => false
      | .ok _ => true

/-- The `async for key in scan_iter: delete` loop body of
`cache_delete_pattern`: a raise anywhere inside the `try` yields the
handler's `0`. -/
def deleteLoop {α : Type} (c : RedisClient α) : List String → Nat → Nat
  | [], acc => acc
  | k :: ks, acc =>
      match c.del k with
      | .error _ => 0
      | .ok _ => deleteLoop c ks (acc + 1)

/-- `cache_delete_pattern` — `0` when there is no client or anything in
the scan-and-delete loop raises; otherwise the number of keys deleted. -/
def cacheDeletePattern {α : Type} (client : Option (RedisClient α))
    (pattern : String) : Nat :=
  match client with
  | none => 0
  | some c =>
      match c.scanIter pattern with
      | .error _ => 0
      | .ok keys => deleteLoop c keys 0

/-- `cache_exists` — `bool(await client.exists(key))`; `False` when there
is no client or the store raises. -/
def cacheExists {α : Type} (client : Option (RedisClient α)) (key : String) :
    Bool :=
  match client with
  | none => false
  | some c =>
      match c.keyExists key with
      | .error _ => false
      | .ok n => n != 0

/-- A client whose every operation raises: the store is reachable as an
object but unreachable as a service. -/
def allOpsFail {α : Type} (client : RedisClient α) : Prop :=
  (∀ k, ∃ e, client.get k = .error e) ∧
  (∀ k v t, ∃ e, client.set k v t = .error e) ∧
  (∀ k, ∃ e, client.del k = .error e) ∧
  (∀ p, ∃ e, client.scanIter p = .error e) ∧
  (∀ k, ∃ e, client.keyExists k = .error e)

end CacheClient

end SmartCourse

namespace SmartCourse

/-! ## Helper lemmas on the embedded stores -/

theorem applyEnrollmentUpdate_student (u : EnrollmentUpdate) (e : Enrollment) :
    (applyEnrollmentUpdate u e).student_id = e.student_id := rfl

theorem applyEnrollmentUpdate_course (u : EnrollmentUpdate) (e : Enrollment) :
    (applyEnrollmentUpdate u e).course_id = e.course_id := rfl

theorem applyEnrollmentUpdate_id (u : EnrollmentUpdate) (e : Enrollment) :
    (applyEnrollmentUpdate u e).id = e.id := rfl

/-- `BaseRepository.update` on an enrollment commutes with the
(student, course) lookup: the found row is the updated original. -/
theorem getByStudentAndCourse_enrollmentUpdate (db : DB) (id : Nat)
    (u : EnrollmentUpdate) (a b : Nat) :
    getByStudentAndCourse (enrollmentUpdate db id u) a b =
      (getByStudentAndCourse db a b).map fun e =>
        if e.id == id then applyEnrollmentUpdate u e else e := by
  have hmem : (enrollmentUpdate db id u).enrollments =
      db.enrollments.map (fun e =>
        if e.id == id then applyEnrollmentUpdate u e else e) := rfl
  unfold getByStudentAndCourse
  rw [hmem, List.find?_map]
  have hpred : ((fun (e : Enrollment) => e.student_id == a && e.course_id == b) ∘
      fun e => if e.id == id then applyEnrollmentUpdate u e else e) =
      fun (e : Enrollment) => e.student_id == a && e.course_id == b := by
    funext e
    by_cases h : e.id = id <;> simp [h, applyEnrollmentUpdate]
  rw [hpred]

theorem enrollmentUpdate_progresses (db : DB) (id : Nat) (u : EnrollmentUpdate) :
    (enrollmentUpdate db id u).progresses = db.progresses := rfl

theorem enrollmentUpdate_contents (db : DB) (id : Nat) (u : EnrollmentUpdate) :
    (enrollmentUpdate db id u).contents = db.contents := rfl

theorem enrollmentUpdate_certificates (db : DB) (id : Nat) (u : EnrollmentUpdate) :
    (enrollmentUpdate db id u).certificates = db.certificates := rfl

end SmartCourse

namespace SmartCourse

/-! ## Concrete fixtures

A single enrollment (user 7 in course 1, `active`, nothing started yet)
against small content trees, used by the scenario theorems and the
witnesses below. -/

def enrollActive : Enrollment :=
  { id := 1, student_id := 7, course_id := 1, status := "active",
    enrolled_at := 0, started_at := none, completed_at := none,
    dropped_at := none, last_accessed_at := none }

/-- One active module with a single active lesson `L1`. -/
def oneLessonContent : ContentDoc :=
  { course_id := 1,
    modules := [{ module_id := "M1", is_active := true,
                  lessons := [{ lesson_id := "L1", is_active := true }],
                  quizzes := [], summaries := [] }] }

def dbOne : DB :=
  { enrollments := [enrollActive], progresses := [], progressNextId := 1,
    certificates := [], certNextId := 1, contents := [oneLessonContent] }

def rowOne : Progress :=
  { id := 1, user_id := 7, course_id := 1, item_type := "lesson",
    item_id := "L1", completed_at := 100, created_at := 100 }

/-- One active module with five active lessons `L1`–`L5`. -/
def fiveLessonContent : ContentDoc :=
  { course_id := 1,
    modules := [{ module_id := "M1", is_active := true,
                  lessons := [
                    { lesson_id := "L1", is_active := true },
                    { lesson_id := "L2", is_active := true },
                    { lesson_id := "L3", is_active := true },
                    { lesson_id := "L4", is_active := true },
                    { lesson_id := "L5", is_active := true }],
                  quizzes := [], summaries := [] }] }

def dbFive : DB :=
  { enrollments := [enrollActive], progresses := [], progressNextId := 1,
    certificates := [], certNextId := 1, contents := [fiveLessonContent] }

def rowL1 : Progress :=
  { id := 1, user_id := 7, course_id := 1, item_type := "lesson",
    item_id := "L1", completed_at := 1, created_at := 1 }

def rowL2 : Progress :=
  { id := 2, user_id := 7, course_id := 1, item_type := "lesson",
    item_id := "L2", completed_at := 2, created_at := 2 }

def rowL3 : Progress :=
  { id := 3, user_id := 7, course_id := 1, item_type := "lesson",
    item_id := "L3", completed_at := 3, created_at := 3 }

def enrollTouched (t : Nat) : Enrollment :=
  { enrollActive with started_at := some 1, last_accessed_at := some t }

def dbFive1 : DB :=
  { enrollments := [enrollTouched 1],
    progresses := [rowL1], progressNextId := 2,
    certificates := [], certNextId := 1, contents := [fiveLessonContent] }

def dbFive2 : DB :=
  { enrollments := [enrollTouched 2],
    progresses := [rowL1, rowL2], progressNextId := 3,
    certificates := [], certNextId := 1, contents := [fiveLessonContent] }

def dbFive3 : DB :=
  { enrollments := [enrollTouched 3],
    progresses := [rowL1, rowL2, rowL3], progressNextId := 4,
    certificates := [], certNextId := 1, contents := [fiveLessonContent] }

/-- The five-lesson tree after lesson `L4` (never completed) is
soft-deleted: the node stays, with `is_active = false`. -/
def fiveLessonContentDel : ContentDoc :=
  { course_id := 1,
    modules := [{ module_id := "M1", is_active := true,
                  lessons := [
                    { lesson_id := "L1", is_active := true },
                    { lesson_id := "L2", is_active := true },
                    { lesson_id := "L3", is_active := true },
                    { lesson_id := "L4", is_active := false },
                    { lesson_id := "L5", is_active := true }],
                  quizzes := [], summaries := [] }] }

def dbFive4 : DB := { dbFive3 with contents := [fiveLessonContentDel] }

end SmartCourse

namespace SmartCourse

/-- The enrolled course with no content document: zero active items. -/
def dbNoContent : DB :=
  { enrollments := [enrollActive], progresses := [], progressNextId := 1,
    certificates := [], certNextId := 1, contents := [] }

/-- User 7 enrolled in course 2, with an existing progress row for item
`("lesson", "L1")` recorded under course 1. -/
def enrollCourse2 : Enrollment :=
  { id := 1, student_id := 7, course_id := 2, status := "active",
    enrolled_at := 0, started_at := none, completed_at := none,
    dropped_at := none, last_accessed_at := none }

def rowCourse1 : Progress :=
  { id := 1, user_id := 7, course_id := 1, item_type := "lesson",
    item_id := "L1", completed_at := 5, created_at := 5 }

def dbCross : DB :=
  { enrollments := [enrollCourse2], progresses := [rowCourse1],
    progressNextId := 2, certificates := [], certNextId := 1, contents := [] }

end SmartCourse

namespace SmartCourse

open CacheClient in
/-- C6: the cache client fails open: for every key, when the underlying
store is unreachable — no connected client, or every operation raises —
`cache_get` returns a miss (`none`), `cache_exists` returns `false`,
`cache_set` and `cache_delete` return `false`, and
`cache_delete_pattern` returns `0`.  No operation propagates the failure:
all five return plain values, never an exception (their types carry no
error case). -/
theorem C6_cache_fails_open {α : Type} (client : Option (RedisClient α))
    (key pattern : String) (v : α) (ttl : Nat)
    (h : client = none ∨ ∃ c, client = some c ∧ allOpsFail c) :
    cacheGet client key = none ∧
    cacheSet client key v ttl = false ∧
    cacheDelete client key = false ∧
    cacheDeletePattern client pattern = 0 ∧
    cacheExists client key = false := by
  rcases h with h | ⟨c, hc, hfail⟩
  · subst h
    exact ⟨rfl, rfl, rfl, rfl, rfl⟩
  · subst hc
    obtain ⟨hget, hset, hdel, hscan, hex⟩ := hfail
    obtain ⟨e1, h1⟩ := hget key
    obtain ⟨e2, h2⟩ := hset key v ttl
    obtain ⟨e3, h3⟩ := hdel key
    obtain ⟨e4, h4⟩ := hscan pattern
    obtain ⟨e5, h5⟩ := hex key
    refine ⟨?_, ?_, ?_, ?_, ?_⟩ <;>
      simp [cacheGet, cacheSet, cacheDelete, cacheDeletePattern, cacheExists,
        h1, h2, h3, h4, h5]

/-- A client whose every operation raises (connection refused). -/
def downClient : RedisClient Nat :=
  { get := fun _ => .error "connection refused"
    set := fun _ _ _ => .error "connection refused"
    del := fun _ => .error "connection refused"
    scanIter := fun _ => .error "connection refused"
    keyExists := fun _ => .error "connection refused" }

open CacheClient in
/-- Witness for C6 at a concrete input: a connected-but-unreachable
client, an arbitrary key and pattern. -/
theorem C6_cache_fails_open_witness :
    cacheGet (some downClient) "course:detail:1" = none ∧
    cacheSet (some downClient) "course:detail:1" 0 600 = false ∧
    cacheDelete (some downClient) "course:detail:1" = false ∧
    cacheDeletePattern (some downClient) "course:published:*" = 0 ∧
    cacheExists (some downClient) "course:detail:1" = false :=
  C6_cache_fails_open (some downClient) "course:detail:1" "course:published:*"
    0 600
    (Or.inr ⟨downClient, rfl,
      ⟨fun _ => ⟨"connection refused", rfl⟩,
       fun _ _ _ => ⟨"connection refused", rfl⟩,
       fun _ => ⟨"connection refused", rfl⟩,
       fun _ => ⟨"connection refused", rfl⟩,
       fun _ => ⟨"connection refused", rfl⟩⟩⟩)

end SmartCourse

namespace SmartCourse

/-- C7: deleting a module or lesson through the content service is a soft
delete: for every existing (course, module) or (course, module, lesson)
path, `delete_module` / `delete_lesson` return the updated document in
which the addressed node's `is_active` is `false`, every module is still
present (same ids, same order), the flagged module keeps all its lessons,
quizzes and summaries, untouched siblings are unchanged, and the store
holds exactly the returned document. -/
theorem C7_delete_is_soft_delete (db : DB) (cid : Nat) (mid lid : String) :
    (∀ doc m, contentByCourseId db cid = some doc → m ∈ doc.modules →
      m.module_id = mid →
      ∃ db' doc', serviceDeleteModule db cid mid = (db', some doc') ∧
        doc'.modules.map (fun x => x.module_id) =
          doc.modules.map (fun x => x.module_id) ∧
        { m with is_active := false } ∈ doc'.modules ∧
        (∀ m' ∈ doc.modules, m'.module_id ≠ mid → m' ∈ doc'.modules) ∧
        contentByCourseId db' cid = some doc') ∧
    (∀ doc m l, contentByCourseId db cid = some doc → m ∈ doc.modules →
      m.module_id = mid → l ∈ m.lessons → l.lesson_id = lid →
      ∃ db' doc', serviceDeleteLesson db cid mid lid = (db', some doc') ∧
        doc'.modules.map (fun x => x.module_id) =
          doc.modules.map (fun x => x.module_id) ∧
        { m with lessons := m.lessons.map fun x =>
            if x.lesson_id == lid then { x with is_active := false } else x } ∈
          doc'.modules ∧
        (m.lessons.map fun x =>
            if x.lesson_id == lid then { x with is_active := false } else x).map
          (fun x => x.lesson_id) = m.lessons.map (fun x => x.lesson_id) ∧
        { l with is_active := false } ∈ m.lessons.map (fun x =>
            if x.lesson_id == lid then { x with is_active := false } else x) ∧
        (∀ m' ∈ doc.modules, m'.module_id ≠ mid → m' ∈ doc'.modules) ∧
        contentByCourseId db' cid = some doc') := by
  have hcourse : ∀ doc, contentByCourseId db cid = some doc →
      (doc.course_id == cid) = true := by
    intro doc hdoc
    unfold contentByCourseId at hdoc
    simpa using List.find?_some hdoc
  constructor
  · intro doc m hdoc hm hmid
    have hany : (doc.modules.any fun x => x.module_id == mid) = true := by
      rw [List.any_eq_true]
      exact ⟨m, hm, by simp [hmid]⟩
    set doc' : ContentDoc :=
      { doc with modules := doc.modules.map fun x =>
          if x.module_id == mid then { x with is_active := false } else x }
      with hdoc'
    refine ⟨(softDeleteModule db cid mid).1, doc', ?_, ?_, ?_, ?_, ?_⟩
    · unfold serviceDeleteModule softDeleteModule
      rw [hdoc]
      simp [hany, hdoc']
    · rw [hdoc', List.map_map]
      apply List.map_congr_left
      intro x _
      by_cases hx : x.module_id = mid <;> simp [hx]
    · rw [hdoc']
      exact List.mem_map.mpr ⟨m, hm, by simp [hmid]⟩
    · intro m' hm' hne
      rw [hdoc']
      exact List.mem_map.mpr ⟨m', hm', by simp [hne]⟩
    · unfold contentByCourseId
      have hmapped : (softDeleteModule db cid mid).1.contents =
          db.contents.map fun d => if d.course_id == cid then doc' else d := by
        unfold softDeleteModule
        rw [hdoc]
        simp [hany, hdoc']
      have hdc : doc.course_id = cid := by simpa using hcourse doc hdoc
      rw [hmapped, List.find?_map]
      have hpred : ((fun (d : ContentDoc) => d.course_id == cid) ∘
          fun d => if d.course_id == cid then doc' else d) =
          fun (d : ContentDoc) => d.course_id == cid := by
        funext d
        by_cases hd : d.course_id = cid
        · simp [hd, hdoc', hdc]
        · simp [hd]
      rw [hpred]
      unfold contentByCourseId at hdoc
      rw [hdoc]
      simp [hdc]
  · intro doc m l hdoc hm hmid hl hlid
    have hany : (doc.modules.any fun x =>
        x.module_id == mid && x.lessons.any fun y => y.lesson_id == lid) = true := by
      rw [List.any_eq_true]
      refine ⟨m, hm, ?_⟩
      rw [Bool.and_eq_true]
      refine ⟨by simp [hmid], ?_⟩
      rw [List.any_eq_true]
      exact ⟨l, hl, by simp [hlid]⟩
    set doc' : ContentDoc :=
      { doc with modules := doc.modules.map fun x =>
          if x.module_id == mid then
            { x with lessons := x.lessons.map fun y =>
                if y.lesson_id == lid then { y with is_active := false } else y }
          else x }
      with hdoc'
    refine ⟨(softDeleteLesson db cid mid lid).1, doc', ?_, ?_, ?_, ?_, ?_, ?_, ?_⟩
    · unfold serviceDeleteLesson softDeleteLesson
      rw [hdoc]
      simp [hany, hdoc']
    · rw [hdoc', List.map_map]
      apply List.map_congr_left
      intro x _
      by_cases hx : x.module_id = mid <;> simp [hx]
    · rw [hdoc']
      exact List.mem_map.mpr ⟨m, hm, by simp [hmid]⟩
    · rw [List.map_map]
      apply List.map_congr_left
      intro y _
      by_cases hy : y.lesson_id = lid <;> simp [hy]
    · exact List.mem_map.mpr ⟨l, hl, by simp [hlid]⟩
    · intro m' hm' hne
      rw [hdoc']
      exact List.mem_map.mpr ⟨m', hm', by simp [hne]⟩
    · unfold contentByCourseId
      have hmapped : (softDeleteLesson db cid mid lid).1.contents =
          db.contents.map fun d => if d.course_id == cid then doc' else d := by
        unfold softDeleteLesson
        rw [hdoc]
        simp [hany, hdoc']
      have hdc : doc.course_id = cid := by simpa using hcourse doc hdoc
      rw [hmapped, List.find?_map]
      have hpred : ((fun (d : ContentDoc) => d.course_id == cid) ∘
          fun d => if d.course_id == cid then doc' else d) =
          fun (d : ContentDoc) => d.course_id == cid := by
        funext d
        by_cases hd : d.course_id = cid
        · simp [hd, hdoc', hdc]
        · simp [hd]
      rw [hpred]
      unfold contentByCourseId at hdoc
      rw [hdoc]
      simp [hdc]

end SmartCourse

namespace SmartCourse

def modM1 : ModuleNode :=
  { module_id := "M1", is_active := true,
    lessons := [{ lesson_id := "L1", is_active := true }],
    quizzes := [], summaries := [] }

def lesL1 : LessonNode := { lesson_id := "L1", is_active := true }

/-- Witness for C7 at a concrete input: soft-deleting module `M1` and
lesson `(M1, L1)` of the one-lesson course. -/
theorem C7_delete_is_soft_delete_witness :
    (∃ db' doc', serviceDeleteModule dbOne 1 "M1" = (db', some doc') ∧
      doc'.modules.map (fun x => x.module_id) =
        oneLessonContent.modules.map (fun x => x.module_id) ∧
      { modM1 with is_active := false } ∈ doc'.modules ∧
      (∀ m' ∈ oneLessonContent.modules, m'.module_id ≠ "M1" → m' ∈ doc'.modules) ∧
      contentByCourseId db' 1 = some doc') ∧
    (∃ db' doc', serviceDeleteLesson dbOne 1 "M1" "L1" = (db', some doc') ∧
      doc'.modules.map (fun x => x.module_id) =
        oneLessonContent.modules.map (fun x => x.module_id) ∧
      { modM1 with lessons := modM1.lessons.map fun x =>
          if x.lesson_id == "L1" then { x with is_active := false } else x } ∈
        doc'.modules ∧
      (modM1.lessons.map fun x =>
          if x.lesson_id == "L1" then { x with is_active := false } else x).map
        (fun x => x.lesson_id) = modM1.lessons.map (fun x => x.lesson_id) ∧
      { lesL1 with is_active := false } ∈ modM1.lessons.map (fun x =>
          if x.lesson_id == "L1" then { x with is_active := false } else x) ∧
      (∀ m' ∈ oneLessonContent.modules, m'.module_id ≠ "M1" → m' ∈ doc'.modules) ∧
      contentByCourseId db' 1 = some doc') :=
  ⟨(C7_delete_is_soft_delete dbOne 1 "M1" "L1").1 oneLessonContent modM1 rfl
      (by simp [oneLessonContent, modM1]) rfl,
   (C7_delete_is_soft_delete dbOne 1 "M1" "L1").2 oneLessonContent modM1 lesL1 rfl
      (by simp [oneLessonContent, modM1]) rfl (by simp [modM1, lesL1]) rfl⟩

end SmartCourse

namespace SmartCourse

/-- C8: `issueCertificate` preconditions and one-per-enrollment
uniqueness: it fails when the enrollment is missing, when its status is
not `completed`, for a non-privileged actor who does not own the
enrollment, and with a conflict when a certificate already exists; of two
sequential calls for the same completed enrollment the first succeeds,
the second fails with the conflict, and exactly one certificate row for
that enrollment exists afterwards. -/
theorem C8_issue_certificate_guards (db : DB) (now1 now2 uid uid2 : Nat)
    (role role2 : String) (data : CertificateCreate) (n1 v1 n2 v2 : String) :
    (enrollmentById db data.enrollment_id = none →
      issueCertificate db now1 data uid role n1 v1 =
        .error "Enrollment not found") ∧
    (∀ e, enrollmentById db data.enrollment_id = some e →
      e.status ≠ "completed" →
      issueCertificate db now1 data uid role n1 v1 =
        .error "Enrollment is not completed — complete all modules first to earn a certificate") ∧
    (∀ e, enrollmentById db data.enrollment_id = some e →
      e.status = "completed" → role ≠ "instructor" → role ≠ "admin" →
      e.student_id ≠ uid →
      issueCertificate db now1 data uid role n1 v1 =
        .error "You can only request a certificate for your own enrollment") ∧
    (∀ e x, enrollmentById db data.enrollment_id = some e →
      e.status = "completed" →
      (role = "instructor" ∨ role = "admin" ∨ e.student_id = uid) →
      certByEnrollment db data.enrollment_id = some x →
      issueCertificate db now1 data uid role n1 v1 =
        .error "Certificate already issued for this enrollment") ∧
    (∀ e, enrollmentById db data.enrollment_id = some e →
      e.status = "completed" →
      (role = "instructor" ∨ role = "admin" ∨ e.student_id = uid) →
      (role2 = "instructor" ∨ role2 = "admin" ∨ e.student_id = uid2) →
      certByEnrollment db data.enrollment_id = none →
      ∃ db1 cert,
        issueCertificate db now1 data uid role n1 v1 = .ok (db1, cert) ∧
        cert.enrollment_id = data.enrollment_id ∧
        issueCertificate db1 now2 data uid2 role2 n2 v2 =
          .error "Certificate already issued for this enrollment" ∧
        (db1.certificates.filter fun cc =>
          cc.enrollment_id == data.enrollment_id).length = 1) := by
  refine ⟨?_, ?_, ?_, ?_, ?_⟩
  · intro h
    simp [issueCertificate, h, throw, throwThe, MonadExceptOf.throw, bind, Except.bind, pure, Except.pure]
  · intro e h hne
    simp [issueCertificate, h, hne, throw, throwThe, MonadExceptOf.throw, bind, Except.bind, pure, Except.pure]
  · intro e h hst hr1 hr2 hsid
    simp [issueCertificate, h, hst, hr1, hr2, hsid, throw, throwThe, MonadExceptOf.throw, bind, Except.bind, pure, Except.pure]
  · intro e x h hst hrole hx
    rcases hrole with hr | hr | hr <;>
      simp [issueCertificate, h, hst, hr, hx, throw, throwThe, MonadExceptOf.throw, bind, Except.bind, pure, Except.pure]
  · intro e h hst hrole hrole2 hnone
    have hfil : db.certificates.filter (fun cc =>
        cc.enrollment_id == data.enrollment_id) = [] := by
      apply List.filter_eq_nil_iff.mpr
      intro cc hcc
      have := List.find?_eq_none.mp hnone cc hcc
      simpa using this
    set cert : Certificate :=
      { id := db.certNextId
        enrollment_id := data.enrollment_id
        certificate_number := n1
        issue_date := now1
        certificate_url := none
        verification_code := v1
        grade := data.grade
        score_percentage := data.score_percentage
        issued_by_id := some uid
        is_revoked := false
        revoked_at := none
        revoked_reason := none
        created_at := now1 } with hcert
    set db1 : DB := { db with
      certificates := db.certificates ++ [cert]
      certNextId := db.certNextId + 1 } with hdb1
    have hfirst : issueCertificate db now1 data uid role n1 v1 =
        .ok (db1, cert) := by
      rcases hrole with hr | hr | hr <;>
        simp [issueCertificate, h, hst, hr, hnone, hdb1, hcert, throw, throwThe, MonadExceptOf.throw, bind, Except.bind, pure, Except.pure]
    have henr1 : enrollmentById db1 data.enrollment_id = some e := h
    have hdup : certByEnrollment db1 data.enrollment_id = some cert := by
      unfold certByEnrollment
      have hc1 : db1.certificates = db.certificates ++ [cert] := rfl
      rw [hc1, List.find?_append]
      unfold certByEnrollment at hnone
      rw [hnone]
      simp [hcert]
    have hsecond : issueCertificate db1 now2 data uid2 role2 n2 v2 =
        .error "Certificate already issued for this enrollment" := by
      rcases hrole2 with hr | hr | hr <;>
        simp [issueCertificate, henr1, hst, hr, hdup, throw, throwThe, MonadExceptOf.throw, bind, Except.bind, pure, Except.pure]
    refine ⟨db1, cert, hfirst, rfl, hsecond, ?_⟩
    have hc1 : db1.certificates = db.certificates ++ [cert] := rfl
    rw [hc1, List.filter_append, hfil]
    simp [hcert]

end SmartCourse

namespace SmartCourse

def enrollDone : Enrollment :=
  { id := 3, student_id := 7, course_id := 1, status := "completed",
    enrolled_at := 0, started_at := some 1, completed_at := some 2,
    dropped_at := none, last_accessed_at := some 2 }

def dbCert : DB :=
  { enrollments := [enrollDone], progresses := [], progressNextId := 1,
    certificates := [], certNextId := 1, contents := [] }

def certReq : CertificateCreate :=
  { enrollment_id := 3, grade := some "A", score_percentage := none }

/-- Witness for C8 at a concrete input: student 7 claims their own
completed enrollment, then an admin retries the issuance. -/
theorem C8_issue_certificate_guards_witness :
    ∃ db1 cert,
      issueCertificate dbCert 1 certReq 7 "student" "SC-1" "V1" = .ok (db1, cert) ∧
      cert.enrollment_id = certReq.enrollment_id ∧
      issueCertificate db1 2 certReq 9 "admin" "SC-2" "V2" =
        .error "Certificate already issued for this enrollment" ∧
      (db1.certificates.filter fun cc =>
        cc.enrollment_id == certReq.enrollment_id).length = 1 :=
  (C8_issue_certificate_guards dbCert 1 2 7 9 "student" "admin" certReq
      "SC-1" "V1" "SC-2" "V2").2.2.2.2 enrollDone rfl rfl
    (Or.inr (Or.inr rfl)) (Or.inr (Or.inl rfl)) rfl

end SmartCourse

namespace SmartCourse

def certA : Certificate :=
  { id := 1, enrollment_id := 10, certificate_number := "SC-AAA",
    issue_date := 5, certificate_url := none, verification_code := "V1",
    grade := some "A", score_percentage := none, issued_by_id := some 2,
    is_revoked := false, revoked_at := none, revoked_reason := none,
    created_at := 5 }

def certB : Certificate := { certA with certificate_number := "SC-BBB" }

/-- Same verification payload as `certA` except for the identity-bearing
columns (`enrollment_id`, `issued_by_id`). -/
def certC : Certificate :=
  { certA with enrollment_id := 99, issued_by_id := some 42 }

def dbVerA : DB :=
  { enrollments := [], progresses := [], progressNextId := 1,
    certificates := [certA], certNextId := 2, contents := [] }

def dbVerB : DB :=
  { enrollments := [], progresses := [], progressNextId := 1,
    certificates := [certB], certNextId := 2, contents := [] }

def dbVerC : DB :=
  { enrollments := [], progresses := [], progressNextId := 1,
    certificates := [certC], certNextId := 2, contents := [] }

/-- C9 counterexample: the claim says the public verification lookup
reveals *only* validity, grade, issue date and revocation status.  The
two stored certificates below agree on all four of those attributes, yet
the endpoint's responses for the same code differ — the response also
carries the certificate number, so it is not a function of the four
enumerated attributes alone. -/
theorem C9_reveals_more_than_claimed :
    certA.grade = certB.grade ∧
    certA.issue_date = certB.issue_date ∧
    certA.is_revoked = certB.is_revoked ∧
    (!certA.is_revoked) = (!certB.is_revoked) ∧
    verifyCertificateEndpoint dbVerA "V1" ≠ verifyCertificateEndpoint dbVerB "V1" := by
  refine ⟨rfl, rfl, rfl, rfl, ?_⟩
  simp [verifyCertificateEndpoint, certByVerificationCode, dbVerA, dbVerB,
    certA, certB]

/-- C9 amended: the public verification response reveals only validity,
certificate number, issue date, grade and revocation status, and never
the owning student's identity: a missing code yields the fixed
`{is_valid := false}` payload, and for any two stores whose matched
certificates agree on number, issue date, grade and revocation flag the
responses are identical — in particular the response is independent of
`enrollment_id`, `issued_by_id` and every other identity-bearing column. -/
theorem C9_no_identity_in_verify (db1 db2 : DB) (code : String) :
    (certByVerificationCode db1 code = none →
      verifyCertificateEndpoint db1 code = { is_valid := false }) ∧
    (∀ c1 c2, certByVerificationCode db1 code = some c1 →
      certByVerificationCode db2 code = some c2 →
      c1.certificate_number = c2.certificate_number →
      c1.issue_date = c2.issue_date →
      c1.grade = c2.grade →
      c1.is_revoked = c2.is_revoked →
      verifyCertificateEndpoint db1 code = verifyCertificateEndpoint db2 code) := by
  constructor
  · intro h
    unfold verifyCertificateEndpoint
    rw [h]
  · intro c1 c2 h1 h2 hn hd hg hr
    unfold verifyCertificateEndpoint
    rw [h1, h2]
    simp only [hn, hd, hg, hr]

/-- Witness for C9 (amended) at concrete inputs: two certificates that
differ exactly in the identity-bearing columns produce the same public
response, and an unknown code produces the fixed invalid payload. -/
theorem C9_no_identity_in_verify_witness :
    verifyCertificateEndpoint dbVerA "V1" = verifyCertificateEndpoint dbVerC "V1" ∧
    verifyCertificateEndpoint dbVerA "NOPE" = { is_valid := false } :=
  ⟨(C9_no_identity_in_verify dbVerA dbVerC "V1").2 certA certC rfl rfl
      rfl rfl rfl rfl,
   (C9_no_identity_in_verify dbVerA dbVerA "NOPE").1 rfl⟩

end SmartCourse

namespace SmartCourse

theorem cacheLookup_remove_self (c : Cache) (k : String) :
    cacheLookup (cacheRemove c k) k = none := by
  unfold cacheLookup cacheRemove
  have hfind : (c.filter fun kv => kv.1 != k).find? (fun kv => kv.1 == k) = none := by
    apply List.find?_eq_none.mpr
    intro kv hkv
    have hmem := (List.mem_filter.mp hkv).2
    simp at hmem ⊢
    exact hmem
  rw [hfind]
  rfl

theorem cacheLookup_removePattern (c : Cache) (pat k : String)
    (h : cacheLookup c k = none) :
    cacheLookup (cacheRemovePattern c pat) k = none := by
  unfold cacheLookup cacheRemovePattern
  unfold cacheLookup at h
  have hnone : c.find? (fun kv => kv.1 == k) = none := by
    cases hf : c.find? fun kv => kv.1 == k with
    | none => rfl
    | some kv => rw [hf] at h; simp at h
  have hfind : (c.filter fun kv => !globMatch pat kv.1).find?
      (fun kv => kv.1 == k) = none := by
    apply List.find?_eq_none.mpr
    intro kv hkv
    exact List.find?_eq_none.mp hnone kv (List.mem_of_mem_filter hkv)
  rw [hfind]
  rfl

theorem mem_removePattern (c : Cache) (pat : String) (kv : String × CacheVal)
    (h : kv ∈ cacheRemovePattern c pat) : globMatch pat kv.1 = false := by
  have := (List.mem_filter.mp h).2
  simpa using this

/-- `BaseRepository.update` on a course commutes with the id lookup. -/
theorem find_courseTableUpdate (courses : List Course) (id : Nat)
    (u : CourseUpdateData) :
    (courseTableUpdate courses id u).find? (fun c => c.id == id) =
      (courses.find? fun c => c.id == id).map (applyCourseUpdate u) := by
  unfold courseTableUpdate
  rw [List.find?_map]
  have hpred : ((fun (c : Course) => c.id == id) ∘
      fun c => if c.id == id then applyCourseUpdate u c else c) =
      fun (c : Course) => c.id == id := by
    funext c
    by_cases hc : c.id = id <;> simp [hc, applyCourseUpdate]
  rw [hpred]
  cases hf : courses.find? fun c => c.id == id with
  | none => rfl
  | some c0 =>
      have hp : c0.id = id := by simpa using List.find?_some hf
      simp [hp]

end SmartCourse

namespace SmartCourse

/-- Read-through miss path of `CourseService.get_course`: cache miss on
the detail key, course present and not soft-deleted. -/
theorem getCourse_miss (s : CourseState) (cid : Nat) (course : Course)
    (hmiss : cacheLookup s.cache (detailKey cid) = none)
    (hfound : courseById s cid = some course)
    (hdel : course.is_deleted = false) :
    (getCourse s cid).1 = some (courseToDict course) := by
  unfold getCourse
  rw [hmiss, hfound]
  simp [hdel]

/-- Inversion of a successful `update_course`: the course existed, was
not soft-deleted, belonged to the acting instructor; the table holds the
updated row, the cache lost the detail key and the published pages, and
the returned dict is the updated course's view. -/
theorem updateCourse_success (s : CourseState) (cid instr : Nat)
    (data : CourseUpdate) (v : CourseView) (s' : CourseState)
    (h : updateCourse s cid data instr = .ok (some v, s')) :
    ∃ course, courseById s cid = some course ∧
      course.is_deleted = false ∧
      course.instructor_id = instr ∧
      s'.courses = courseTableUpdate s.courses cid { title := data.title } ∧
      s'.cache = cacheRemovePattern (cacheRemove s.cache (detailKey cid))
        "course:published:*" ∧
      v = courseToDict (applyCourseUpdate { title := data.title } course) := by
  unfold updateCourse at h
  cases hco : courseById s cid with
  | none =>
      rw [hco] at h
      simp [pure, Except.pure] at h
  | some course =>
      rw [hco] at h
      by_cases hdel : course.is_deleted
      · simp [hdel, pure, Except.pure] at h
      · by_cases hown : course.instructor_id = instr
        · simp [hdel, hown, pure, Except.pure, bind, Except.bind,
            find_courseTableUpdate] at h
          obtain ⟨hv, hs'⟩ := h
          subst hs'
          refine ⟨course, rfl, by simpa using hdel, hown, rfl, rfl, ?_⟩
          obtain ⟨a, ha1, ha2⟩ := hv
          have hac : a = course := by
            unfold courseById at hco
            rw [hco] at ha1
            exact (Option.some.inj ha1).symm
          subst hac
          exact ha2.symm
        · simp [hdel, hown, pure, Except.pure, bind, Except.bind, throw,
            throwThe, MonadExceptOf.throw] at h

/-- Inversion of a successful `update_status`: cache effect only. -/
theorem updateStatus_success_cache (s : CourseState) (now cid instr : Nat)
    (st : String) (v : CourseView) (s' : CourseState)
    (h : updateStatus s now cid st instr = .ok (some v, s')) :
    s'.cache = cacheRemovePattern (cacheRemove s.cache (detailKey cid))
      "course:published:*" := by
  unfold updateStatus at h
  cases hco : courseById s cid with
  | none =>
      rw [hco] at h
      simp [pure, Except.pure] at h
  | some course =>
      rw [hco] at h
      by_cases hdel : course.is_deleted
      · simp [hdel, pure, Except.pure] at h
      · by_cases hown : course.instructor_id = instr
        · simp [hdel, hown, pure, Except.pure, bind, Except.bind] at h
          obtain ⟨hv, hs'⟩ := h
          subst hs'
          rfl
        · simp [hdel, hown, pure, Except.pure, bind, Except.bind, throw,
            throwThe, MonadExceptOf.throw] at h

/-- Inversion of a successful `delete_course`: cache effect only. -/
theorem deleteCourse_success_cache (s : CourseState) (cid instr : Nat)
    (s' : CourseState)
    (h : deleteCourse s cid instr = .ok (true, s')) :
    s'.cache = cacheRemovePattern (cacheRemove s.cache (detailKey cid))
      "course:published:*" := by
  unfold deleteCourse at h
  cases hco : courseById s cid with
  | none =>
      rw [hco] at h
      simp [pure, Except.pure] at h
  | some course =>
      rw [hco] at h
      by_cases hdel : course.is_deleted
      · simp [hdel, pure, Except.pure] at h
      · by_cases hown : course.instructor_id = instr
        · simp [hdel, hown, pure, Except.pure, bind, Except.bind] at h
          subst h
          rfl
        · simp [hdel, hown, pure, Except.pure, bind, Except.bind, throw,
            throwThe, MonadExceptOf.throw] at h

/-- C5 (amended): after every successful mutating call among
`update_course`, `update_status` and `delete_course`, and before the call
returns, the `course:detail:{id}` key is gone and no key matching
`course:published:*` remains in the cache; and a `get_course(id)` issued
immediately after `update_course(id, {title := "X"})` in the same process
returns the updated title.  (`create_course` performs no cache
invalidation — see the counterexample theorem — which is why the claim's
`create` is absent here.) -/
theorem C5_invalidation_on_write_paths (s : CourseState) (now cid instr : Nat)
    (data : CourseUpdate) (st : String) :
    (∀ v s', updateCourse s cid data instr = .ok (some v, s') →
      cacheLookup s'.cache (detailKey cid) = none ∧
      (∀ kv ∈ s'.cache, globMatch "course:published:*" kv.1 = false) ∧
      (data.title = some "X" →
        (getCourse s' cid).1 = some v ∧ v.title = "X")) ∧
    (∀ v s', updateStatus s now cid st instr = .ok (some v, s') →
      cacheLookup s'.cache (detailKey cid) = none ∧
      ∀ kv ∈ s'.cache, globMatch "course:published:*" kv.1 = false) ∧
    (∀ s', deleteCourse s cid instr = .ok (true, s') →
      cacheLookup s'.cache (detailKey cid) = none ∧
      ∀ kv ∈ s'.cache, globMatch "course:published:*" kv.1 = false) := by
  refine ⟨?_, ?_, ?_⟩
  · intro v s' h
    obtain ⟨course, hco, hdel, hown, hcourses, hcache, hview⟩ :=
      updateCourse_success s cid instr data v s' h
    have hmiss : cacheLookup s'.cache (detailKey cid) = none := by
      rw [hcache]
      exact cacheLookup_removePattern _ _ _ (cacheLookup_remove_self s.cache _)
    refine ⟨hmiss, ?_, ?_⟩
    · intro kv hkv
      rw [hcache] at hkv
      exact mem_removePattern _ _ kv hkv
    · intro htitle
      have hfound : courseById s' cid =
          some (applyCourseUpdate { title := data.title } course) := by
        unfold courseById
        rw [hcourses, find_courseTableUpdate]
        unfold courseById at hco
        rw [hco]
        rfl
      have hdel' : (applyCourseUpdate { title := data.title } course).is_deleted
          = false := by
        simp [applyCourseUpdate, hdel]
      constructor
      · rw [getCourse_miss s' cid _ hmiss hfound hdel', hview]
      · rw [hview]
        simp [courseToDict, applyCourseUpdate, htitle]
  · intro v s' h
    have hcache := updateStatus_success_cache s now cid instr st v s' h
    refine ⟨?_, ?_⟩
    · rw [hcache]
      exact cacheLookup_removePattern _ _ _ (cacheLookup_remove_self s.cache _)
    · intro kv hkv
      rw [hcache] at hkv
      exact mem_removePattern _ _ kv hkv
  · intro s' h
    have hcache := deleteCourse_success_cache s cid instr s' h
    refine ⟨?_, ?_⟩
    · rw [hcache]
      exact cacheLookup_removePattern _ _ _ (cacheLookup_remove_self s.cache _)
    · intro kv hkv
      rw [hcache] at hkv
      exact mem_removePattern _ _ kv hkv

end SmartCourse

namespace SmartCourse

def coursePub : Course :=
  { id := 1, title := "T", slug := "t", instructor_id := 5,
    status := "published", published_at := some 1, is_deleted := false }

/-- A cache holding one published-listing page, as left by a prior
`list_published_courses` call. -/
def cacheWithPage : Cache :=
  [("course:published:p:0:l:100", .page [courseToDict coursePub] 1)]

def sBefore : CourseState :=
  { courses := [coursePub], courseNextId := 2, cache := cacheWithPage }

def courseNew : Course :=
  { id := 2, title := "New", slug := "new", instructor_id := 5,
    status := "draft", published_at := none, is_deleted := false }

def sAfterCreate : CourseState :=
  { courses := [coursePub, courseNew], courseNextId := 3,
    cache := cacheWithPage }

/-- C5 counterexample: the claim includes `create` among the mutations
that delete all `course:published:*` keys, but `create_course` performs
no cache operation: after a successful create the previously cached
published page — whose key matches `course:published:*` — is still
present, unchanged. -/
theorem C5_create_performs_no_invalidation :
    createCourse sBefore { title := "New", slug := "new" } 5 =
      .ok (courseToDict courseNew, sAfterCreate) ∧
    sAfterCreate.cache = sBefore.cache ∧
    cacheLookup sAfterCreate.cache "course:published:p:0:l:100" =
      some (.page [courseToDict coursePub] 1) ∧
    globMatch "course:published:*" "course:published:p:0:l:100" = true := by
  refine ⟨?_, rfl, rfl, by decide⟩
  simp [createCourse, slugExists, sBefore, sAfterCreate, coursePub, courseNew,
    courseToDict, cacheWithPage, pure, Except.pure, throw, throwThe,
    MonadExceptOf.throw, bind, Except.bind]

def courseX : Course := { coursePub with title := "X" }

def sAfterUpdate : CourseState :=
  { courses := [courseX], courseNextId := 2, cache := [] }

/-- Witness for C5 (amended) at a concrete input: updating course 1's
title to `"X"` from a state whose cache holds a published page. -/
theorem C5_invalidation_on_write_paths_witness :
    cacheLookup sAfterUpdate.cache (detailKey 1) = none ∧
    (∀ kv ∈ sAfterUpdate.cache, globMatch "course:published:*" kv.1 = false) ∧
    ((getCourse sAfterUpdate 1).1 = some (courseToDict courseX) ∧
      (courseToDict courseX).title = "X") :=
  have h := (C5_invalidation_on_write_paths sBefore 99 1 5
      { title := some "X" } "published").1 (courseToDict courseX) sAfterUpdate
    (by
      simp [updateCourse, courseById, courseTableUpdate, applyCourseUpdate,
        cacheRemovePattern, cacheRemove, detailKey, sBefore, sAfterUpdate,
        coursePub, courseX, courseToDict, cacheWithPage, pure, Except.pure,
        bind, Except.bind, throw, throwThe, MonadExceptOf.throw]
      decide)
  ⟨h.1, h.2.1, h.2.2 rfl⟩

end SmartCourse

namespace SmartCourse

def enrollStarted100At (t : Nat) : Enrollment :=
  { enrollActive with started_at := some 100, last_accessed_at := some t }

/-- State after the first `mark_completed` at `t = 100`: the progress row
and the `started_at`/`last_accessed_at` refresh are committed, but the
call raised out of `_check_auto_complete` before the completion update —
the enrollment is still `active` with no `completed_at`. -/
def dbOneA : DB :=
  { enrollments := [enrollStarted100At 100],
    progresses := [rowOne], progressNextId := 2,
    certificates := [], certNextId := 1, contents := [oneLessonContent] }

/-- State after the duplicate `mark_completed` at `t = 200`: only
`last_accessed_at` moved; the call raised again. -/
def dbOneB : DB :=
  { enrollments := [enrollStarted100At 200],
    progresses := [rowOne], progressNextId := 2,
    certificates := [], certNextId := 1, contents := [oneLessonContent] }

/-- C1: the claim says that once aggregate completion reaches 100% the
`markCompleted` flow sets the enrollment's status to `completed` and its
`completed_at` exactly once.  The code never does this at all: with the
single lesson of the course completed, `_check_auto_complete` raises the
`ValidationError` from `get_course_progress` (the `CourseProgressSummary`
construction lacks the schema's required `enrollment_id`) before its 100%
guard is evaluated, so both the first call and the repeat call leave the
enrollment `active` with `completed_at = none` — auto-completion never
fires, not even once — while the committed progress row persists. -/
theorem C1_auto_complete_never_fires :
    markCompleted dbOne 100 7 1 "lesson" "L1" =
      (dbOneA, .error validationErrMsg) ∧
    dbOneA.progresses = [rowOne] ∧
    dbOneA.enrollments.map (fun e => (e.status, e.completed_at)) =
      [("active", none)] ∧
    markCompleted dbOneA 200 7 1 "lesson" "L1" =
      (dbOneB, .error validationErrMsg) ∧
    dbOneB.enrollments.map (fun e => (e.status, e.completed_at)) =
      [("active", none)] ∧
    dbOneB.progresses = dbOneA.progresses :=
  ⟨rfl, rfl, rfl, rfl, rfl, rfl⟩

/-- State after the duplicate `mark_completed` on the five-lesson course
at `t = 2`: only `last_accessed_at` moved, no second row. -/
def dbFive1b : DB :=
  { enrollments := [enrollTouched 2],
    progresses := [rowL1], progressNextId := 2,
    certificates := [], certNextId := 1, contents := [fiveLessonContent] }

/-- C2: the claim says two identical `markCompleted` calls store exactly
one row, are never an error, and both return the same existing record.
The storage half is true of the code — the upsert inserts exactly one
row, and the repository-level `mark_completed` returns the same existing
record on the duplicate without error — but the service-level call is an
error every time: it raises the `ValidationError` from
`_check_auto_complete` (missing required `enrollment_id` in the
`CourseProgressSummary` construction) after committing, so neither call
returns a record. -/
theorem C2_service_raises_but_write_idempotent :
    markCompleted dbFive 1 7 1 "lesson" "L1" =
      (dbFive1, .error validationErrMsg) ∧
    markCompleted dbFive1 2 7 1 "lesson" "L1" =
      (dbFive1b, .error validationErrMsg) ∧
    dbFive1.progresses = [rowL1] ∧
    dbFive1b.progresses = dbFive1.progresses ∧
    repoMarkCompleted dbFive 1 7 1 "lesson" "L1" =
      ({ dbFive with progresses := [rowL1], progressNextId := 2 }, some rowL1) ∧
    repoMarkCompleted dbFive1 2 7 1 "lesson" "L1" = (dbFive1, some rowL1) :=
  ⟨rfl, rfl, rfl, rfl, rfl, rfl⟩

/-- C3: the claim says `getCourseProgress` returns 60.00 after 3 of 5
active lessons are complete and 75.00 once a never-completed lesson is
soft-deleted.  The code computes exactly those values in its locals —
the denominator recomputed from the active-item set, the numerator as
the completed pairs intersected with it — but then raises the
`ValidationError` at the `CourseProgressSummary` construction (required
`enrollment_id` never supplied) and returns neither; the progress table
is unchanged by the soft delete. -/
theorem C3_percentages_computed_but_never_returned :
    markCompleted dbFive 1 7 1 "lesson" "L1" =
      (dbFive1, .error validationErrMsg) ∧
    markCompleted dbFive1 2 7 1 "lesson" "L2" =
      (dbFive2, .error validationErrMsg) ∧
    markCompleted dbFive2 3 7 1 "lesson" "L3" =
      (dbFive3, .error validationErrMsg) ∧
    computedCompletion dbFive3 7 1 = (5, 3, 60) ∧
    getCourseProgress dbFive3 7 1 = .error validationErrMsg ∧
    computedCompletion dbFive4 7 1 = (4, 3, 75) ∧
    getCourseProgress dbFive4 7 1 = .error validationErrMsg ∧
    dbFive4.progresses = dbFive3.progresses := by
  refine ⟨rfl, rfl, rfl, ?_, rfl, ?_, rfl, rfl⟩
  · simp [computedCompletion, getActiveItems, contentByCourseId,
      getUserCourseProgress, round2, dbFive3, enrollTouched, enrollActive,
      fiveLessonContent, rowL1, rowL2, rowL3]
    norm_num
  · simp [computedCompletion, getActiveItems, contentByCourseId,
      getUserCourseProgress, round2, dbFive4, dbFive3, enrollTouched,
      enrollActive, fiveLessonContentDel, rowL1, rowL2, rowL3]
    norm_num

/-- C4: the claim says a course with zero active items yields
`completion_percentage = 0.00` and `is_complete = false`, never an
error.  The division guard does work — the percentage is computed as `0`
with no division attempted — but the call never returns it: the
`CourseProgressSummary` construction raises the `ValidationError`
(required `enrollment_id` never supplied), so the call is an error, not
the claimed `0.00 / false` result. -/
theorem C4_zero_guard_computes_but_call_raises :
    computedCompletion dbNoContent 7 1 = (0, 0, 0) ∧
    getCourseProgress dbNoContent 7 1 = .error validationErrMsg :=
  ⟨rfl, rfl⟩

end SmartCourse

namespace SmartCourse

/-- C10: progress uniqueness is global per user and item, not per course:
the unique key of the progress table is `(user_id, item_type, item_id)`
(`uq_progress_user_item`, no course component), so when user `u` already
has a row for item `(t, i)` under course `A`, the repository
`mark_completed(u, B, t, i)` for a different course `B` conflicts,
inserts no row, leaves the table unchanged and returns the existing
record still carrying course `A`'s `course_id`; and that `(t, i)` pair is
absent from `get_user_course_progress(u, B)` — the list whose pairs form
the membership set of `get_course_progress`'s numerator — so the
completion is never counted toward course `B`. -/
theorem C10_progress_unique_per_user_item (db : DB) (now u A B : Nat)
    (t i : String) (r : Progress)
    (hAB : A ≠ B)
    (hdup : getByUserAndItem db u t i = some r)
    (hcourse : r.course_id = A)
    (huniq : ∀ p ∈ db.progresses,
      p.user_id = u → p.item_type = t → p.item_id = i → p = r) :
    repoMarkCompleted db now u B t i = (db, some r) ∧
    (t, i) ∉ (getUserCourseProgress db u B).map fun p =>
      (p.item_type, p.item_id) := by
  constructor
  · unfold repoMarkCompleted
    rw [hdup]
  · intro hmem
    rw [List.mem_map] at hmem
    obtain ⟨p, hpin, hpair⟩ := hmem
    unfold getUserCourseProgress at hpin
    rw [List.mem_filter] at hpin
    obtain ⟨hpdb, hpred⟩ := hpin
    have ht : p.item_type = t := congrArg Prod.fst hpair
    have hi : p.item_id = i := congrArg Prod.snd hpair
    have hu : p.user_id = u := by
      have := (Bool.and_eq_true _ _).mp hpred
      exact Nat.eq_of_beq_eq_true (by simpa using this.1)
    have hpr : p = r := huniq p hpdb hu ht hi
    have hB : p.course_id = B := by
      have := (Bool.and_eq_true _ _).mp hpred
      exact Nat.eq_of_beq_eq_true (by simpa using this.2)
    rw [hpr, hcourse] at hB
    exact hAB hB

/-- Witness for C10 at a concrete input: the repository upsert for
`("lesson", "L1")` addressed to course 2 when the row exists under
course 1. -/
theorem C10_progress_unique_per_user_item_witness :
    repoMarkCompleted dbCross 9 7 2 "lesson" "L1" = (dbCross, some rowCourse1) ∧
    ("lesson", "L1") ∉ (getUserCourseProgress dbCross 7 2).map fun p =>
      (p.item_type, p.item_id) :=
  C10_progress_unique_per_user_item dbCross 9 7 1 2 "lesson" "L1" rowCourse1
    (by decide) rfl rfl
    (by
      intro p hp h1 h2 h3
      simp only [dbCross] at hp
      simpa using hp)

end SmartCourse
